import Mathlib

/-!
Verification of the ModGuard moderation backend (src/index.js).

The service's algorithmic core is embedded shallowly:
JavaScript numbers are modelled as rationals (`ℚ`), `parseFloat` as a
partial coercion (`none` standing for NaN), and the outcome of
`JSON.parse` on the classifier's textual reply as an inductive type
whose constructors are the behavioural equivalence classes of payloads
(unparseable, `null`, a non-null primitive, a structured object).
-/

namespace ModGuard

/-- The six recognized flag types, mirroring `FLAG_TYPES` in src/index.js. -/
inductive FlagType where
  | toxicity
  | harassment
  | hateSpeech
  | sexual
  | violence
  | spam
deriving DecidableEq, Fintype, Repr

/-- `FLAG_TYPES` in declaration order (src/index.js lines 30-37). -/
def FLAG_TYPES : List FlagType :=
  [.toxicity, .harassment, .hateSpeech, .sexual, .violence, .spam]

/-- A raw field of the parsed classifier payload, classified by what JS
`parseFloat` does with it: `num q` covers values coercing to the number `q`
(a JSON number, or a string with a numeric prefix), `nonNumeric` covers
everything `parseFloat` maps to NaN (a missing field, a non-numeric string
such as "abc", `null`, booleans, nested objects). -/
inductive RawVal where
  | num (q : ℚ)
  | nonNumeric
deriving DecidableEq

/-- `parseFloat` on a raw field: `none` is NaN. -/
def parseFloatOpt : RawVal → Option ℚ
  | .num q => some q
  | .nonNumeric => none

/-- `Math.round (x * 100) / 100`: JS `Math.round` rounds half toward `+∞`,
i.e. `⌊x + 1/2⌋` on the scaled value. -/
def round2 (x : ℚ) : ℚ := (⌊x * 100 + 1 / 2⌋ : ℚ) / 100

/-- JS `Math.max` on two numbers. -/
def jsMax (a b : ℚ) : ℚ := if a ≤ b then b else a

/-- JS `Math.min` on two numbers. -/
def jsMin (a b : ℚ) : ℚ := if a ≤ b then a else b

/-- `Math.max(0, Math.min(1, value))` (src/index.js line 195). -/
def clamp01 (x : ℚ) : ℚ := jsMax 0 (jsMin 1 x)

/-- One iteration of the `FLAG_TYPES.forEach` body of
`parseAndValidateScores`: coerce, substitute 0 for NaN, clamp, round. -/
def validateScore (v : RawVal) : ℚ :=
  round2 (clamp01 ((parseFloatOpt v).getD 0))

/-- Outcome of `JSON.parse(aiResponse)`, by behavioural class:
`malformed` — `JSON.parse` throws; `jnull` — it returns `null`, so the
subsequent property reads `scores[flag]` throw a TypeError; `prim` — it
returns a non-null primitive (number, string, boolean), so every property
read yields `undefined`; `obj fields` — it returns a structured object
whose relevant fields are `fields`. -/
inductive AIResponse where
  | malformed
  | jnull
  | prim
  | obj (fields : FlagType → RawVal)

/-- `parseAndValidateScores` (src/index.js lines 187-204). The `validated`
object is built by iterating over `FLAG_TYPES`, so it is modelled as the
association list in that order. A payload that is unparseable, or parses
to `null` (making `scores[flag]` throw inside the `try`), reaches the
`catch` and throws `Invalid AI response format`; a non-null primitive gives
`undefined` for every field, hence a score of 0 everywhere. -/
def parseAndValidateScores : AIResponse → Except String (List (FlagType × ℚ))
  | .malformed => .error "Invalid AI response format"
  | .jnull => .error "Invalid AI response format"
  | .prim => .ok (FLAG_TYPES.map fun t => (t, validateScore .nonNumeric))
  | .obj fields => .ok (FLAG_TYPES.map fun t => (t, validateScore (fields t)))

/-- `true` iff `parseAndValidateScores` returned normally. -/
def succeeds : Except String (List (FlagType × ℚ)) → Bool
  | .ok _ => true
  | .error _ => false

/-- Whether the payload parsed as a structured object (the spec's notion). -/
def isStructuredObject : AIResponse → Bool
  | .obj _ => true
  | _ => false

/-- JS property access `scores[t]` on an object modelled as an association
list: the first binding wins, absence is `undefined` (`none`). -/
def objGet (l : List (FlagType × ℚ)) (t : FlagType) : Option ℚ :=
  (l.find? fun p => p.1 = t).map Prod.snd

/-- A flag record `{ flag_type, value }` as built by `formatResponse`.
The `flag_type` is an `Option` because the reduce in
`storeResultsInSupabase` starts from the sentinel `{ flag_type: null,
value: -1 }`. -/
structure FlagRecord where
  flag_type : Option FlagType
  value : ℚ
deriving DecidableEq

/-- JS `scores[flagType] || 0`: `undefined` and the falsy number `0` both
give `0`; any other number passes through. -/
def orZeroFalsy : Option ℚ → ℚ
  | none => 0
  | some q => if q = 0 then 0 else q

/-- `formatResponse` (src/index.js lines 216-221): map over `FLAG_TYPES`
in declaration order, defaulting missing entries to 0. -/
def formatResponse (scores : FlagType → Option ℚ) : List FlagRecord :=
  FLAG_TYPES.map fun flagType => ⟨some flagType, orZeroFalsy (scores flagType)⟩

/-- `generateRandomScores` (src/index.js lines 207-213), with the stream of
`Math.random()` draws made explicit as `rand`: each flag gets
`Math.round(rand * 100) / 100`. -/
def generateRandomScores (rand : FlagType → ℚ) : List (FlagType × ℚ) :=
  FLAG_TYPES.map fun flag => (flag, round2 (rand flag))

/-- One step of the `results.reduce` in `storeResultsInSupabase`
(src/index.js lines 227-230): `current.value > max.value ? current : max`. -/
def maxStep (mx current : FlagRecord) : FlagRecord :=
  if current.value > mx.value then current else mx

/-- The full reduce, starting from the sentinel `{flag_type: null, value: -1}`. -/
def maxFlag (results : List FlagRecord) : FlagRecord :=
  results.foldl maxStep ⟨none, -1⟩

/-- Status bucketing (src/index.js lines 239-246). -/
def deriveStatus (v : ℚ) : String :=
  if v ≥ 7 / 10 then "flagged"
  else if v < 3 / 10 then "clean"
  else "borderline"

/-- The `flags` JSON column written by `storeResultsInSupabase`. -/
structure FormattedFlags where
  type : Option FlagType
  score : ℚ
  flagged : Bool
deriving DecidableEq

/-- The row inserted into `request_data` (src/index.js lines 248-257). -/
structure StoredResult where
  api_key : String
  content : String
  content_type : String
  flags : FormattedFlags
  user_id : Option String
  status : String
deriving DecidableEq

/-- The pure part of `storeResultsInSupabase` (src/index.js lines 224-257):
the row it asks Supabase to insert. -/
def storeResultsInSupabase (apikey content : String) (results : List FlagRecord) :
    StoredResult :=
  let maxFl := maxFlag results
  { api_key := apikey
    content := content
    content_type := "text"
    flags := { type := maxFl.flag_type, score := maxFl.value,
               flagged := decide (maxFl.value ≥ 1 / 2) }
    user_id := none
    status := deriveStatus maxFl.value }

/-- A JS value of a request-body field, as far as the handlers inspect it:
`undef` — absent; `str s` — a string; `nonStr truthy` — any non-string
value together with its truthiness (numbers, booleans, `null`, objects). -/
inductive JSVal where
  | undef
  | str (s : String)
  | nonStr (truthy : Bool)
deriving DecidableEq

/-- JS falsiness of a body field: `undefined`, `""`, and falsy non-strings
(`null`, `0`, `false`, `NaN`) are falsy. -/
def falsy : JSVal → Bool
  | .undef => true
  | .str s => s = ""
  | .nonStr truthy => !truthy

/-- The check `!content || typeof content !== "string"` of both handlers. -/
def contentInvalid (content : JSVal) : Bool :=
  falsy content || !(match content with | .str _ => true | _ => false)

/-- The observable outcome of one request: HTTP status, body (a flag-record
list on success, an error message otherwise), whether the classifier call
was started, and whether a persistence insert was attempted. -/
structure ModerationOutcome where
  status : Nat
  body : Except String (List FlagRecord)
  classified : Bool
  persisted : Bool

/-- Outcome of `analyzeContentWithAI`'s network layer: `none` — the axios
call failed (timeout, network error, non-2xx); `some r` — it returned and
the response text parses as `r`. -/
def ClassifierOutcome := Option AIResponse

/-- `scores` as computed by the `try`/`catch` around `analyzeContentWithAI`
in both handlers: any throw (network failure, or `parseAndValidateScores`
throwing) falls back to `generateRandomScores`. -/
def obtainScores (classifier : ClassifierOutcome) (rand : FlagType → ℚ) :
    List (FlagType × ℚ) :=
  match classifier with
  | none => generateRandomScores rand
  | some resp =>
    match parseAndValidateScores resp with
    | .ok scores => scores
    | .error _ => generateRandomScores rand

/-- `true` iff the classifier call as a whole throws, i.e. the network call
failed or the payload made `parseAndValidateScores` throw. -/
def classifierFailed (classifier : ClassifierOutcome) : Bool :=
  match classifier with
  | none => true
  | some resp => !(succeeds (parseAndValidateScores resp))

/-- `POST /moderate` (src/index.js lines 47-97). `verify` is the external
key store's exact-match lookup (`verifyApiKey`); `persistOk` is whether the
Supabase insert succeeds (its failure is surfaced as a 500 by the outer
`catch`). The duplicated content check of the source is kept as-is. -/
def moderateHandler (verify : JSVal → Bool) (classifier : ClassifierOutcome)
    (rand : FlagType → ℚ) (persistOk : Bool) (content apikey : JSVal) :
    ModerationOutcome :=
  if contentInvalid content then
    ⟨400, .error "Valid content string is required", false, false⟩
  else if falsy apikey then
    ⟨401, .error "API key is required", false, false⟩
  else if contentInvalid content then
    ⟨400, .error "Valid content string is required", false, false⟩
  else if !(verify apikey) then
    ⟨403, .error "Invalid API key", false, false⟩
  else
    let response := formatResponse (objGet (obtainScores classifier rand))
    if persistOk then ⟨200, .ok response, true, true⟩
    else ⟨500, .error "Internal server error", true, true⟩

/-- `POST /test/moderate` (src/index.js lines 98-135): same validation, no
key check, no persistence. -/
def testModerateHandler (classifier : ClassifierOutcome) (rand : FlagType → ℚ)
    (content : JSVal) : ModerationOutcome :=
  if contentInvalid content then
    ⟨400, .error "Valid content string is required", false, false⟩
  else if contentInvalid content then
    ⟨400, .error "Valid content string is required", false, false⟩
  else
    ⟨200, .ok (formatResponse (objGet (obtainScores classifier rand))), true, false⟩

/-! ### Helper lemmas about rounding and clamping -/

theorem round2_nonneg {x : ℚ} (h : 0 ≤ x) : 0 ≤ round2 x := by
  unfold round2
  have hfl : (0 : ℤ) ≤ ⌊x * 100 + 1 / 2⌋ := by
    rw [Int.le_floor]
    push_cast
    linarith
  positivity

theorem round2_le_one {x : ℚ} (h : x ≤ 1) : round2 x ≤ 1 := by
  unfold round2
  have h1 : (⌊x * 100 + 1 / 2⌋ : ℚ) ≤ x * 100 + 1 / 2 := Int.floor_le _
  have h2 : ⌊x * 100 + 1 / 2⌋ < 101 := by
    have : (⌊x * 100 + 1 / 2⌋ : ℚ) < 101 := by linarith
    exact_mod_cast this
  have h3 : (⌊x * 100 + 1 / 2⌋ : ℚ) ≤ 100 := by
    have : ⌊x * 100 + 1 / 2⌋ ≤ 100 := by omega
    exact_mod_cast this
  linarith

theorem round2_hundredth {x : ℚ} (h0 : 0 ≤ x) (h1 : x ≤ 1) :
    ∃ n : ℕ, n ≤ 100 ∧ round2 x = (n : ℚ) / 100 := by
  have hfl : (0 : ℤ) ≤ ⌊x * 100 + 1 / 2⌋ := by
    rw [Int.le_floor]
    push_cast
    linarith
  have hub : ⌊x * 100 + 1 / 2⌋ ≤ 100 := by
    have ha : (⌊x * 100 + 1 / 2⌋ : ℚ) ≤ x * 100 + 1 / 2 := Int.floor_le _
    have : (⌊x * 100 + 1 / 2⌋ : ℚ) < 101 := by linarith
    have : ⌊x * 100 + 1 / 2⌋ < 101 := by exact_mod_cast this
    omega
  refine ⟨⌊x * 100 + 1 / 2⌋.toNat, ?_, ?_⟩
  · omega
  · unfold round2
    congr 1
    exact_mod_cast (Int.toNat_of_nonneg hfl).symm

theorem clamp01_nonneg (x : ℚ) : 0 ≤ clamp01 x := by
  unfold clamp01 jsMax jsMin
  split_ifs <;> linarith

theorem clamp01_le_one (x : ℚ) : clamp01 x ≤ 1 := by
  unfold clamp01 jsMax jsMin
  split_ifs <;> linarith

theorem validateScore_nonneg (v : RawVal) : 0 ≤ validateScore v :=
  round2_nonneg (clamp01_nonneg _)

theorem validateScore_le_one (v : RawVal) : validateScore v ≤ 1 :=
  round2_le_one (clamp01_le_one _)

theorem validateScore_hundredth (v : RawVal) :
    ∃ n : ℕ, n ≤ 100 ∧ validateScore v = (n : ℚ) / 100 :=
  round2_hundredth (clamp01_nonneg _) (clamp01_le_one _)

/-! ### Helper lemmas about the `reduce` in `storeResultsInSupabase` -/

theorem maxStep_pos {mx current : FlagRecord} (h : current.value > mx.value) :
    maxStep mx current = current := if_pos h

theorem maxStep_neg {mx current : FlagRecord} (h : ¬current.value > mx.value) :
    maxStep mx current = mx := if_neg h

theorem maxStep_left_le (mx current : FlagRecord) :
    mx.value ≤ (maxStep mx current).value := by
  unfold maxStep
  split
  · linarith
  · exact le_refl _

theorem maxStep_right_le (mx current : FlagRecord) :
    current.value ≤ (maxStep mx current).value := by
  unfold maxStep
  split
  · exact le_refl _
  · linarith

theorem foldl_maxStep_acc_le :
    ∀ (l : List FlagRecord) (acc : FlagRecord),
      acc.value ≤ (l.foldl maxStep acc).value
  | [], _ => le_refl _
  | r :: rs, acc =>
    le_trans (maxStep_left_le acc r) (foldl_maxStep_acc_le rs (maxStep acc r))

theorem foldl_maxStep_mem_le :
    ∀ (l : List FlagRecord) (acc r : FlagRecord), r ∈ l →
      r.value ≤ (l.foldl maxStep acc).value := by
  intro l
  induction l with
  | nil => intro acc r hr; cases hr
  | cons x rs ih =>
    intro acc r hr
    rcases List.mem_cons.mp hr with rfl | hmem
    · exact le_trans (maxStep_right_le acc r) (foldl_maxStep_acc_le rs _)
    · exact ih (maxStep acc x) r hmem

theorem foldl_maxStep_eq_or_mem :
    ∀ (l : List FlagRecord) (acc : FlagRecord),
      l.foldl maxStep acc = acc ∨
        (l.foldl maxStep acc ∈ l ∧ acc.value < (l.foldl maxStep acc).value) := by
  intro l
  induction l with
  | nil => intro acc; exact Or.inl rfl
  | cons x rs ih =>
    intro acc
    by_cases hx : x.value > acc.value
    · have hstep : maxStep acc x = x := maxStep_pos hx
      have hfold : (x :: rs).foldl maxStep acc = rs.foldl maxStep x := by
        simp [List.foldl, hstep]
      rcases ih x with heq | ⟨hmem, hlt⟩
      · refine Or.inr ?_
        rw [hfold, heq]
        exact ⟨List.mem_cons_self x rs, hx⟩
      · refine Or.inr ?_
        rw [hfold]
        exact ⟨List.mem_cons_of_mem x hmem, lt_trans hx hlt⟩
    · have hstep : maxStep acc x = acc := maxStep_neg hx
      have hfold : (x :: rs).foldl maxStep acc = rs.foldl maxStep acc := by
        simp [List.foldl, hstep]
      rcases ih acc with heq | ⟨hmem, hlt⟩
      · exact Or.inl (by rw [hfold, heq])
      · refine Or.inr ?_
        rw [hfold]
        exact ⟨List.mem_cons_of_mem x hmem, hlt⟩

theorem foldl_maxStep_find :
    ∀ (l : List FlagRecord) (acc : FlagRecord),
      acc.value < (l.foldl maxStep acc).value →
      l.find? (fun r => decide ((l.foldl maxStep acc).value ≤ r.value)) =
        some (l.foldl maxStep acc) := by
  intro l
  induction l with
  | nil => intro acc h; exact absurd h (lt_irrefl _)
  | cons x rs ih =>
    intro acc hacc
    by_cases hx : x.value > acc.value
    · have hfold : (x :: rs).foldl maxStep acc = rs.foldl maxStep x := by
        simp [List.foldl, maxStep_pos hx]
      rw [hfold]
      rcases foldl_maxStep_eq_or_mem rs x with heq | ⟨_, hlt⟩
      · rw [heq]
        exact List.find?_cons_of_pos rs (by simp)
      · rw [List.find?_cons_of_neg rs
          (by simp only [decide_eq_true_eq, not_le]; exact hlt)]
        exact ih x hlt
    · have hxle : x.value ≤ acc.value := not_lt.mp hx
      have hfold : (x :: rs).foldl maxStep acc = rs.foldl maxStep acc := by
        simp [List.foldl, maxStep_neg hx]
      rw [hfold] at hacc ⊢
      rw [List.find?_cons_of_neg rs
        (by simp only [decide_eq_true_eq, not_le]; linarith)]
      exact ih acc hacc

/-! ### Helper lemmas about `formatResponse`, `objGet` and the fallback -/

theorem mem_FLAG_TYPES (t : FlagType) : t ∈ FLAG_TYPES := by
  cases t <;> simp [FLAG_TYPES]

theorem validateScore_nonNumeric : validateScore .nonNumeric = 0 := by
  norm_num [validateScore, parseFloatOpt, clamp01, jsMax, jsMin, round2]

theorem orZeroFalsy_some (q : ℚ) : orZeroFalsy (some q) = q := by
  unfold orZeroFalsy
  split <;> simp_all

theorem formatResponse_flag_types (scores : FlagType → Option ℚ) :
    (formatResponse scores).map FlagRecord.flag_type = FLAG_TYPES.map some := by
  simp [formatResponse]

theorem formatResponse_filter (scores : FlagType → Option ℚ) (t : FlagType) :
    (formatResponse scores).filter (fun r => decide (r.flag_type = some t)) =
      [⟨some t, orZeroFalsy (scores t)⟩] := by
  cases t <;> simp [formatResponse, FLAG_TYPES]

theorem formatResponse_mem {scores : FlagType → Option ℚ} {r : FlagRecord}
    (hr : r ∈ formatResponse scores) :
    ∃ t : FlagType, r = ⟨some t, orZeroFalsy (scores t)⟩ := by
  rcases List.mem_map.mp hr with ⟨t, _, rfl⟩
  exact ⟨t, rfl⟩

theorem formatResponse_missing (scores : FlagType → Option ℚ) (t : FlagType)
    (ht : scores t = none) : (⟨some t, 0⟩ : FlagRecord) ∈ formatResponse scores := by
  refine List.mem_map.mpr ⟨t, mem_FLAG_TYPES t, ?_⟩
  rw [ht]
  rfl

theorem generateRandomScores_fst (rand : FlagType → ℚ) :
    (generateRandomScores rand).map Prod.fst = FLAG_TYPES := by
  simp [generateRandomScores, FLAG_TYPES]

theorem objGet_generateRandomScores (rand : FlagType → ℚ) (t : FlagType) :
    objGet (generateRandomScores rand) t = some (round2 (rand t)) := by
  cases t <;> simp [objGet, generateRandomScores, FLAG_TYPES, List.find?]

theorem obtainScores_of_failed {classifier : ClassifierOutcome}
    (hfail : classifierFailed classifier = true) (rand : FlagType → ℚ) :
    obtainScores classifier rand = generateRandomScores rand := by
  cases classifier with
  | none => rfl
  | some resp =>
    cases hres : parseAndValidateScores resp with
    | ok scores =>
      exfalso
      simp [classifierFailed, hres, succeeds] at hfail
    | error e =>
      simp [obtainScores, hres]

/-! ### Claims -/

/-- C1: for every raw classifier payload that parses as a structured object,
`parseAndValidateScores` returns a mapping whose keys are exactly the six
recognized flag types in declaration order, where each value is the numeric
coercion of the raw field (0 substituted for NaN), clamped to `[0, 1]` and
rounded to 2 decimal places; in particular every output value lies in
`[0, 1]` and is an integer multiple of `1/100`. A non-numeric field such as
the string "abc" yields 0. -/
theorem parseAndValidateScores_normalizes (fields : FlagType → RawVal) :
    ∃ scores : List (FlagType × ℚ),
      parseAndValidateScores (.obj fields) = .ok scores ∧
      scores.map Prod.fst = FLAG_TYPES ∧
      (∀ p ∈ scores,
        p.2 = round2 (clamp01 ((parseFloatOpt (fields p.1)).getD 0))) ∧
      (∀ p ∈ scores,
        0 ≤ p.2 ∧ p.2 ≤ 1 ∧ ∃ n : ℕ, n ≤ 100 ∧ p.2 = (n : ℚ) / 100) ∧
      validateScore .nonNumeric = 0 := by
  refine ⟨_, rfl, ?_, ?_, ?_, validateScore_nonNumeric⟩
  · simp [FLAG_TYPES]
  · intro p hp
    rcases List.mem_map.mp hp with ⟨t, _, rfl⟩
    rfl
  · intro p hp
    rcases List.mem_map.mp hp with ⟨t, _, rfl⟩
    exact ⟨validateScore_nonneg _, validateScore_le_one _, validateScore_hundredth _⟩

/-- The payload `{toxicity: q}` with no other recognized field. -/
def toxOnly (q : ℚ) : FlagType → RawVal :=
  fun t => match t with
  | .toxicity => .num q
  | _ => .nonNumeric

/-- The normalized output whose toxicity entry is `q` and whose other
entries are 0. -/
def toxRow (q : ℚ) : List (FlagType × ℚ) :=
  [(.toxicity, q), (.harassment, 0), (.hateSpeech, 0), (.sexual, 0),
   (.violence, 0), (.spam, 0)]

/-- C4, counterexample: normalizing `{toxicity: 1.499}` yields toxicity 1,
not 0.5 — the code clamps to `[0, 1]` before rounding, so 1.499 is clamped
to 1. -/
theorem normalize_1499_yields_one :
    parseAndValidateScores (.obj (toxOnly (1499 / 1000))) = .ok (toxRow 1) ∧
    (1 : ℚ) ≠ 1 / 2 := by
  constructor
  · norm_num [parseAndValidateScores, FLAG_TYPES, toxOnly, toxRow,
      validateScore, parseFloatOpt, clamp01, jsMax, jsMin, round2]
  · norm_num

/-- C4, amended: normalizing `{toxicity: 1.499}` yields toxicity 1 (clamp
precedes rounding), `{toxicity: -3}` yields 0, and `{toxicity: 3}`
yields 1. -/
theorem normalize_clamp_examples :
    parseAndValidateScores (.obj (toxOnly (1499 / 1000))) = .ok (toxRow 1) ∧
    parseAndValidateScores (.obj (toxOnly (-3))) = .ok (toxRow 0) ∧
    parseAndValidateScores (.obj (toxOnly 3)) = .ok (toxRow 1) := by
  refine ⟨?_, ?_, ?_⟩ <;>
    norm_num [parseAndValidateScores, FLAG_TYPES, toxOnly, toxRow,
      validateScore, parseFloatOpt, clamp01, jsMax, jsMin, round2]

/-- C6, counterexample: a payload that parses as a bare primitive (for
example the text `"5"`, which `JSON.parse` turns into the number 5) does
not parse as a structured object, yet `parseAndValidateScores` succeeds on
it — every property read yields `undefined`, which coerces to score 0 — so
the normalizer does not raise an error on every input that fails to parse
as a structured object. -/
theorem normalizer_succeeds_on_primitive :
    isStructuredObject .prim = false ∧
    succeeds (parseAndValidateScores .prim) = true :=
  ⟨rfl, rfl⟩

/-- C6, amended: the normalizer raises the error
`Invalid AI response format` exactly when `JSON.parse` fails or yields
`null` (whose property reads throw inside the `try`); every payload that
parses as a structured object succeeds, and a payload that parses as a
non-null primitive also succeeds, with every score 0. -/
theorem normalizer_error_conditions :
    parseAndValidateScores .malformed = .error "Invalid AI response format" ∧
    parseAndValidateScores .jnull = .error "Invalid AI response format" ∧
    (∀ fields, succeeds (parseAndValidateScores (.obj fields)) = true) ∧
    succeeds (parseAndValidateScores .prim) = true ∧
    parseAndValidateScores .prim = .ok (FLAG_TYPES.map fun t => (t, 0)) := by
  refine ⟨rfl, rfl, fun _ => rfl, rfl, ?_⟩
  simp [parseAndValidateScores, FLAG_TYPES, validateScore_nonNumeric]

/-- C2: the status stored by `storeResultsInSupabase` buckets the winning
(maximum) flag value with exact thresholds — "flagged" iff the value is
`≥ 0.7`, "clean" iff it is `< 0.3`, "borderline" otherwise — and the
`flagged` boolean is true iff the value is `≥ 0.5`; in particular winning
value 0.69 gives "borderline", 0.3 gives "borderline", 0.29 gives "clean"
and 0.7 gives "flagged". -/
theorem storeResults_status_thresholds (apikey content : String)
    (results : List FlagRecord) :
    ((storeResultsInSupabase apikey content results).status = "flagged" ↔
      (maxFlag results).value ≥ 7 / 10) ∧
    ((storeResultsInSupabase apikey content results).status = "clean" ↔
      (maxFlag results).value < 3 / 10) ∧
    ((storeResultsInSupabase apikey content results).status = "borderline" ↔
      3 / 10 ≤ (maxFlag results).value ∧ (maxFlag results).value < 7 / 10) ∧
    ((storeResultsInSupabase apikey content results).flags.flagged = true ↔
      (maxFlag results).value ≥ 1 / 2) ∧
    deriveStatus (69 / 100) = "borderline" ∧
    deriveStatus (3 / 10) = "borderline" ∧
    deriveStatus (29 / 100) = "clean" ∧
    deriveStatus (7 / 10) = "flagged" := by
  have hst : (storeResultsInSupabase apikey content results).status =
      deriveStatus (maxFlag results).value := rfl
  have hfl : (storeResultsInSupabase apikey content results).flags.flagged =
      decide ((maxFlag results).value ≥ 1 / 2) := rfl
  refine ⟨?_, ?_, ?_, ?_, ?_, ?_, ?_, ?_⟩
  · rw [hst]; unfold deriveStatus; split_ifs with h1 h2 <;> simp_all
  · rw [hst]; unfold deriveStatus; split_ifs with h1 h2 <;> simp_all <;> linarith
  · rw [hst]; unfold deriveStatus; split_ifs with h1 h2 <;> simp_all <;> linarith
  · rw [hfl]; simp
  · norm_num [deriveStatus]
  · norm_num [deriveStatus]
  · norm_num [deriveStatus]
  · norm_num [deriveStatus]

/-- The tied flag-record list `[{toxicity, 0.8}, {spam, 0.8}]`. -/
def exTie : List FlagRecord :=
  [⟨some .toxicity, 8 / 10⟩, ⟨some .spam, 8 / 10⟩]

/-- C3: the reduce in `storeResultsInSupabase` starts from the sentinel
value -1, so on a nonempty record list whose values are all `≥ 0` the
result is a record of the list, its value is the maximum, and it is the
first record attaining that maximum (ties won by the first occurrence in
enumeration order); on the tied list `[{toxicity, 0.8}, {spam, 0.8}]` it
picks toxicity and the derived status is "flagged". -/
theorem maxFlag_first_occurrence (results : List FlagRecord)
    (hne : results ≠ []) (hpos : ∀ r ∈ results, 0 ≤ r.value) :
    maxFlag results ∈ results ∧
    (∀ r ∈ results, r.value ≤ (maxFlag results).value) ∧
    results.find? (fun r => decide ((maxFlag results).value ≤ r.value)) =
      some (maxFlag results) ∧
    maxFlag exTie = ⟨some .toxicity, 8 / 10⟩ ∧
    deriveStatus (maxFlag exTie).value = "flagged" := by
  have hex : maxFlag exTie = ⟨some FlagType.toxicity, 8 / 10⟩ := by
    norm_num [maxFlag, exTie, List.foldl, maxStep]
  have hacc : (FlagRecord.mk none (-1)).value < (maxFlag results).value := by
    rcases results with _ | ⟨r0, rs⟩
    · exact absurd rfl hne
    · have h0 : (0 : ℚ) ≤ r0.value := hpos r0 (List.mem_cons_self _ _)
      have h1 : r0.value ≤ (maxFlag (r0 :: rs)).value :=
        foldl_maxStep_mem_le _ _ _ (List.mem_cons_self _ _)
      show (-1 : ℚ) < _
      linarith
  have hmem : maxFlag results ∈ results := by
    rcases foldl_maxStep_eq_or_mem results ⟨none, -1⟩ with heq | ⟨hm, _⟩
    · exfalso
      unfold maxFlag at hacc
      rw [heq] at hacc
      exact lt_irrefl _ hacc
    · exact hm
  refine ⟨hmem, ?_, foldl_maxStep_find results ⟨none, -1⟩ hacc, hex, ?_⟩
  · intro r hr
    exact foldl_maxStep_mem_le results ⟨none, -1⟩ r hr
  · rw [hex]
    norm_num [deriveStatus]

/-- Witness for C3 at the tied input from the spec. -/
theorem maxFlag_first_occurrence_witness :
    maxFlag exTie ∈ exTie ∧
    exTie.find? (fun r => decide ((maxFlag exTie).value ≤ r.value)) =
      some (maxFlag exTie) ∧
    deriveStatus (maxFlag exTie).value = "flagged" := by
  have h := maxFlag_first_occurrence exTie (by simp [exTie])
    (by intro r hr; fin_cases hr <;> norm_num [exTie])
  exact ⟨h.1, h.2.2.1, h.2.2.2.2⟩

/-- C5: `formatResponse` yields one flag record per recognized flag type,
keyed in the enumeration's declared order (it is a pure function, so the
order is identical across calls); a flag type missing from the input
mapping gets value 0; the function is total, so it has no side effects and
no failure modes. -/
theorem formatResponse_ordered_complete (scores : FlagType → Option ℚ) :
    (formatResponse scores).map FlagRecord.flag_type = FLAG_TYPES.map some ∧
    (∀ t : FlagType,
      (formatResponse scores).filter (fun r => decide (r.flag_type = some t)) =
        [⟨some t, orZeroFalsy (scores t)⟩]) ∧
    (∀ t : FlagType, scores t = none →
      (⟨some t, 0⟩ : FlagRecord) ∈ formatResponse scores) :=
  ⟨formatResponse_flag_types scores, formatResponse_filter scores,
   formatResponse_missing scores⟩

/-- Witness for C5 at the empty score mapping. -/
theorem formatResponse_ordered_complete_witness :
    (formatResponse fun _ => none).map FlagRecord.flag_type =
      FLAG_TYPES.map some ∧
    (⟨some .toxicity, 0⟩ : FlagRecord) ∈ (formatResponse fun _ => none) := by
  have h := formatResponse_ordered_complete fun _ => none
  exact ⟨h.1, h.2.2 .toxicity rfl⟩

/-- C7: `generateRandomScores` is a total function of the random draws (it
never throws), and whenever each `Math.random()` draw lies in `[0, 1)` it
returns a mapping containing every recognized flag type whose values lie in
`[0, 1]` rounded to 2 decimals. -/
theorem generateRandomScores_complete_bounded (rand : FlagType → ℚ)
    (h : ∀ t, 0 ≤ rand t ∧ rand t < 1) :
    (generateRandomScores rand).map Prod.fst = FLAG_TYPES ∧
    ∀ p ∈ generateRandomScores rand,
      0 ≤ p.2 ∧ p.2 ≤ 1 ∧ ∃ n : ℕ, n ≤ 100 ∧ p.2 = (n : ℚ) / 100 := by
  refine ⟨generateRandomScores_fst rand, ?_⟩
  intro p hp
  rcases List.mem_map.mp hp with ⟨t, _, rfl⟩
  exact ⟨round2_nonneg (h t).1, round2_le_one (le_of_lt (h t).2),
    round2_hundredth (h t).1 (le_of_lt (h t).2)⟩

/-- Witness for C7 at the constant-zero random source. -/
theorem generateRandomScores_complete_bounded_witness :
    (∀ t : FlagType, (0 : ℚ) ≤ 0 ∧ (0 : ℚ) < 1) ∧
    (generateRandomScores fun _ => 0).map Prod.fst = FLAG_TYPES ∧
    ∀ p ∈ generateRandomScores fun _ => 0,
      0 ≤ p.2 ∧ p.2 ≤ 1 ∧ ∃ n : ℕ, n ≤ 100 ∧ p.2 = (n : ℚ) / 100 := by
  have hh : ∀ t : FlagType, (0 : ℚ) ≤ 0 ∧ (0 : ℚ) < 1 :=
    fun _ => ⟨le_refl 0, zero_lt_one⟩
  have h := generateRandomScores_complete_bounded (fun _ => 0) hh
  exact ⟨hh, h.1, h.2⟩

/-- C8: on `POST /moderate`, a missing, empty, or non-string `content`
gives 400; otherwise an absent (falsy) `apikey` gives 401; otherwise an
`apikey` rejected by the key-store lookup gives 403 — and in each of these
cases the outcome records that neither the classifier call nor a
persistence insert ever started. -/
theorem moderate_validation (verify : JSVal → Bool)
    (classifier : ClassifierOutcome) (rand : FlagType → ℚ) (persistOk : Bool)
    (content apikey : JSVal) :
    (contentInvalid content = true ↔
      content = .undef ∨ content = .str "" ∨ ∃ b, content = .nonStr b) ∧
    (contentInvalid content = true →
      moderateHandler verify classifier rand persistOk content apikey =
        ⟨400, .error "Valid content string is required", false, false⟩) ∧
    (contentInvalid content = false → falsy apikey = true →
      moderateHandler verify classifier rand persistOk content apikey =
        ⟨401, .error "API key is required", false, false⟩) ∧
    (contentInvalid content = false → falsy apikey = false →
      verify apikey = false →
      moderateHandler verify classifier rand persistOk content apikey =
        ⟨403, .error "Invalid API key", false, false⟩) := by
  refine ⟨?_, ?_, ?_, ?_⟩
  · cases content <;> simp [contentInvalid, falsy]
  · intro h
    simp [moderateHandler, h]
  · intro h1 h2
    simp [moderateHandler, h1, h2]
  · intro h1 h2 h3
    simp [moderateHandler, h1, h2, h3]

/-- Witness for C8: empty content gives 400; valid content with no key
gives 401; valid content with a key the store rejects gives 403. -/
theorem moderate_validation_witness :
    moderateHandler (fun _ => false) none (fun _ => 0) true (.str "") .undef =
      ⟨400, .error "Valid content string is required", false, false⟩ ∧
    moderateHandler (fun _ => false) none (fun _ => 0) true (.str "hi") .undef =
      ⟨401, .error "API key is required", false, false⟩ ∧
    moderateHandler (fun _ => false) none (fun _ => 0) true (.str "hi")
        (.str "bad-key") =
      ⟨403, .error "Invalid API key", false, false⟩ :=
  ⟨(moderate_validation (fun _ => false) none (fun _ => 0) true
      (.str "") .undef).2.1 (by decide),
   (moderate_validation (fun _ => false) none (fun _ => 0) true
      (.str "hi") .undef).2.2.1 (by decide) (by decide),
   (moderate_validation (fun _ => false) none (fun _ => 0) true
      (.str "hi") (.str "bad-key")).2.2.2 (by decide) (by decide) rfl⟩

/-- C9: when the classifier call fails in any way — network failure or
timeout (`classifier = none`), or a payload on which
`parseAndValidateScores` throws — both handlers recover locally with
fallback random scores and never surface the failure: `POST /test/moderate`
with valid content returns 200 with a complete, `[0, 1]`-bounded flag
record list and attempts no persistence insert, and `POST /moderate` with a
valid key and working persistence still returns 200. -/
theorem classifier_failure_recovered (classifier : ClassifierOutcome)
    (hfail : classifierFailed classifier = true) (rand : FlagType → ℚ)
    (hrand : ∀ t, 0 ≤ rand t ∧ rand t < 1) (content : JSVal)
    (hcontent : contentInvalid content = false) (verify : JSVal → Bool)
    (apikey : JSVal) (hkey : falsy apikey = false)
    (hverify : verify apikey = true) :
    (testModerateHandler classifier rand content).status = 200 ∧
    (testModerateHandler classifier rand content).persisted = false ∧
    (∃ l, (testModerateHandler classifier rand content).body = .ok l ∧
      l.map FlagRecord.flag_type = FLAG_TYPES.map some ∧
      ∀ r ∈ l, 0 ≤ r.value ∧ r.value ≤ 1) ∧
    (moderateHandler verify classifier rand true content apikey).status =
      200 := by
  have hout : testModerateHandler classifier rand content =
      ⟨200, .ok (formatResponse (objGet (obtainScores classifier rand))),
        true, false⟩ := by
    simp [testModerateHandler, hcontent]
  have hscores : obtainScores classifier rand = generateRandomScores rand :=
    obtainScores_of_failed hfail rand
  refine ⟨by rw [hout], by rw [hout], ?_, ?_⟩
  · refine ⟨formatResponse (objGet (obtainScores classifier rand)),
      by rw [hout], formatResponse_flag_types _, ?_⟩
    intro r hr
    rcases formatResponse_mem hr with ⟨t, rfl⟩
    rw [hscores, objGet_generateRandomScores, orZeroFalsy_some]
    exact ⟨round2_nonneg (hrand t).1, round2_le_one (le_of_lt (hrand t).2)⟩
  · simp [moderateHandler, hcontent, hkey, hverify]

/-- Witness for C9: unreachable classifier, valid content, accepted key. -/
theorem classifier_failure_recovered_witness :
    (testModerateHandler none (fun _ => 0) (.str "hi")).status = 200 ∧
    (testModerateHandler none (fun _ => 0) (.str "hi")).persisted = false ∧
    (∃ l, (testModerateHandler none (fun _ => 0) (.str "hi")).body = .ok l ∧
      l.map FlagRecord.flag_type = FLAG_TYPES.map some ∧
      ∀ r ∈ l, 0 ≤ r.value ∧ r.value ≤ 1) ∧
    (moderateHandler (fun _ => true) none (fun _ => 0) true (.str "hi")
      (.str "good-key")).status = 200 :=
  classifier_failure_recovered none rfl (fun _ => 0)
    (fun _ => ⟨le_refl 0, zero_lt_one⟩) (.str "hi") (by decide)
    (fun _ => true) (.str "good-key") (by decide) rfl

/-- C10: a stored result built by `storeResultsInSupabase` from a
formatted flag-record list (whose present scores are nonnegative, as the
pipeline guarantees) always carries a dominant flag that is one of the six
recognized flag types — never the null sentinel — whose score equals the
maximum of the six formatted values and is `≥ 0`, and the row is written
with `user_id` null and `content_type` "text". -/
theorem storedResult_invariants (apikey content : String)
    (scores : FlagType → Option ℚ)
    (hpos : ∀ t q, scores t = some q → 0 ≤ q) :
    (∃ t : FlagType,
      (storeResultsInSupabase apikey content
        (formatResponse scores)).flags.type = some t) ∧
    0 ≤ (storeResultsInSupabase apikey content
        (formatResponse scores)).flags.score ∧
    (∀ r ∈ formatResponse scores,
      r.value ≤ (storeResultsInSupabase apikey content
        (formatResponse scores)).flags.score) ∧
    (∃ r ∈ formatResponse scores,
      r.value = (storeResultsInSupabase apikey content
        (formatResponse scores)).flags.score) ∧
    (storeResultsInSupabase apikey content
        (formatResponse scores)).user_id = none ∧
    (storeResultsInSupabase apikey content
        (formatResponse scores)).content_type = "text" := by
  have hvals : ∀ r ∈ formatResponse scores, 0 ≤ r.value := by
    intro r hr
    rcases formatResponse_mem hr with ⟨t, rfl⟩
    show 0 ≤ orZeroFalsy (scores t)
    cases hq : scores t with
    | none => simp [orZeroFalsy]
    | some q => rw [orZeroFalsy_some]; exact hpos t q hq
  have htype : (storeResultsInSupabase apikey content
      (formatResponse scores)).flags.type =
        (maxFlag (formatResponse scores)).flag_type := rfl
  have hscore : (storeResultsInSupabase apikey content
      (formatResponse scores)).flags.score =
        (maxFlag (formatResponse scores)).value := rfl
  have hne : formatResponse scores ≠ [] := by
    simp [formatResponse, FLAG_TYPES]
  have hacc : (FlagRecord.mk none (-1)).value <
      (maxFlag (formatResponse scores)).value := by
    have hmem0 : (⟨some FlagType.toxicity,
        orZeroFalsy (scores FlagType.toxicity)⟩ : FlagRecord) ∈
          formatResponse scores :=
      List.mem_map.mpr ⟨.toxicity, mem_FLAG_TYPES _, rfl⟩
    have h0 : (0 : ℚ) ≤ orZeroFalsy (scores FlagType.toxicity) := hvals _ hmem0
    have h1 : orZeroFalsy (scores FlagType.toxicity) ≤
        (maxFlag (formatResponse scores)).value :=
      foldl_maxStep_mem_le _ _ _ hmem0
    show (-1 : ℚ) < _
    linarith
  have hmem : maxFlag (formatResponse scores) ∈ formatResponse scores := by
    rcases foldl_maxStep_eq_or_mem (formatResponse scores) ⟨none, -1⟩ with
      heq | ⟨hm, _⟩
    · exfalso
      unfold maxFlag at hacc
      rw [heq] at hacc
      exact lt_irrefl _ hacc
    · exact hm
  refine ⟨?_, ?_, ?_, ?_, rfl, rfl⟩
  · rcases formatResponse_mem hmem with ⟨t, hmx⟩
    refine ⟨t, ?_⟩
    rw [htype, hmx]
  · rw [hscore]
    exact hvals _ hmem
  · intro r hr
    rw [hscore]
    exact foldl_maxStep_mem_le _ _ r hr
  · exact ⟨maxFlag (formatResponse scores), hmem, hscore.symm⟩

/-- Witness for C10 at the empty score mapping. -/
theorem storedResult_invariants_witness :
    (∃ t : FlagType,
      (storeResultsInSupabase "key" "text-content"
        (formatResponse fun _ => none)).flags.type = some t) ∧
    0 ≤ (storeResultsInSupabase "key" "text-content"
        (formatResponse fun _ => none)).flags.score ∧
    (storeResultsInSupabase "key" "text-content"
        (formatResponse fun _ => none)).user_id = none ∧
    (storeResultsInSupabase "key" "text-content"
        (formatResponse fun _ => none)).content_type = "text" := by
  have h := storedResult_invariants "key" "text-content" (fun _ => none)
    (fun t q hq => Option.noConfusion hq)
  exact ⟨h.1, h.2.1, h.2.2.2.2.1, h.2.2.2.2.2⟩

end ModGuard
